import Mathlib

/-!
Verification of the Desksong audio engine specification against its source.

The source is a Web Audio API player (src/renderer/js/audio-engine.js, two
near-duplicate engine classes: an advanced and a basic variant; src/renderer/js/app.js;
src/renderer/js/ui-controller.js).  The shallow embedding below translates the
playback-clock arithmetic, the setter automation schedules, the live and offline
DSP graphs, the preset table, and the WAV container writer into pure Lean
definitions.  JavaScript double arithmetic is idealized as exact rational
arithmetic (the spec's claims are stated "within floating-point tolerance",
so exact rationals are the intended reading); wall-clock instants
(audioContext.currentTime) are passed explicitly as rational parameters.
-/

namespace Desksong

/-- Decoded audio buffer metadata: mirrors the fields of a Web Audio
`AudioBuffer` that audio-engine.js reads (`duration`, `sampleRate`,
`numberOfChannels`). -/
structure Buf where
  duration : ℚ
  sampleRate : ℕ
  channels : ℕ
deriving DecidableEq

/-- Per-session effect parameter fields of the advanced `AudioEngine` class
(audio-engine.js constructor lines 30-41): the stored mix values are already
normalized to [0,1] (`this.reverbMix`, `this.delayMix`, `this.chorusMix`),
`gainValue` is the live `gainNode.gain.value`, `bassBoost` the dB value
computed by `setBassBoost`, and the compressor threshold and ratio the values
computed by `setCompressor`. -/
structure EngineParams where
  gainValue : ℚ
  bassBoost : ℚ
  compThreshold : ℚ
  compRatioValue : ℚ
  reverbMix : ℚ
  delayMix : ℚ
  chorusMix : ℚ
deriving DecidableEq

/-- Playback transport state of `AudioEngine` (audio-engine.js lines 3-10 and
31-38).  `hasSource` models `this.sourceNode !== null`.  `preservePitch` is set
to `true` in the constructor (line 37) and never reassigned anywhere in the
repository, so the legacy `else` branch of `updateActualPlaybackRate`
(lines 396-400, which would multiply in the irrational factor `2^(pitch/12)`) is
dead code; the embedding therefore keeps `actualPlaybackRate = playbackRate`
as `updateActualPlaybackRate` computes on the live branch. -/
structure Engine where
  audioBuffer : Option Buf
  pauseTime : ℚ
  startTime : ℚ
  isPlaying : Bool
  hasSource : Bool
  playbackRate : ℚ
  pitchShift : ℚ
  actualPlaybackRate : ℚ
  fx : EngineParams
deriving DecidableEq

/-- `AudioEngine.updateActualPlaybackRate` (audio-engine.js lines 389-401),
restricted to the reachable `preservePitch = true` branch: the actual rate is
the speed alone. -/
def Engine.updateActualPlaybackRate (e : Engine) : Engine :=
  { e with actualPlaybackRate := e.playbackRate }

/-- `AudioEngine.play` (audio-engine.js lines 238-275), called at wall-clock
instant `now`: guarded by `!this.audioBuffer || this.isPlaying`; creates a
source, refreshes the actual rate, starts at `offset = this.pauseTime`, and
sets `this.startTime = now - offset / this.actualPlaybackRate`. -/
def Engine.play (e : Engine) (now : ℚ) : Engine :=
  if e.audioBuffer = none ∨ e.isPlaying then e
  else
    let e1 := e.updateActualPlaybackRate
    { e1 with
      hasSource := true
      startTime := now - e1.pauseTime / e1.actualPlaybackRate
      isPlaying := true }

/-- `AudioEngine.pause` (audio-engine.js lines 277-293), called at wall-clock
instant `now`: freezes `pauseTime += (now - startTime) * actualPlaybackRate`
and drops the source node. -/
def Engine.pause (e : Engine) (now : ℚ) : Engine :=
  if ¬ e.isPlaying ∨ ¬ e.hasSource then e
  else
    { e with
      pauseTime := e.pauseTime + (now - e.startTime) * e.actualPlaybackRate
      hasSource := false
      isPlaying := false }

/-- `AudioEngine.stop` (audio-engine.js lines 295-309): drops the source node
(the JS `sourceNode.stop()` is wrapped in try/catch, so a second call cannot
throw; the embedding is a total function), clears the playing flag and resets
both time anchors to 0. -/
def Engine.stop (e : Engine) : Engine :=
  { e with hasSource := false, isPlaying := false, pauseTime := 0, startTime := 0 }

/-- `AudioEngine.seek` (audio-engine.js lines 311-338), synchronous part, at
wall-clock instant `now`: no-op without a buffer; clamps the target to
`[0, duration]`, tears down a playing source, sets `pauseTime` to the clamped
target and `startTime` to `now`.  The deferred resume (`setTimeout(() =>
this.play(), 10)` when it was playing) fires 10 ms later and is not part of
this synchronous state; "immediately after seek" in the spec refers to the
state modelled here. -/
def Engine.seek (e : Engine) (now : ℚ) (t : ℚ) : Engine :=
  match e.audioBuffer with
  | none => e
  | some b =>
    let target := max 0 (min t b.duration)
    let e1 := if e.isPlaying then { e with hasSource := false, isPlaying := false } else e
    { e1 with pauseTime := target, startTime := now }

/-- `AudioEngine.getCurrentTime` (audio-engine.js lines 340-351), read at
wall-clock instant `now`: 0 without a buffer; while playing it returns
`min (pauseTime + (now - startTime) * actualPlaybackRate) duration`, otherwise
the frozen `pauseTime`. -/
def Engine.getCurrentTime (e : Engine) (now : ℚ) : ℚ :=
  match e.audioBuffer with
  | none => 0
  | some b =>
    if e.isPlaying ∧ e.hasSource then
      min (e.pauseTime + (now - e.startTime) * e.actualPlaybackRate) b.duration
    else e.pauseTime

/-- Metadata object returned by `AudioEngine.loadAudioFile` on success
(audio-engine.js lines 227-231). -/
structure LoadInfo where
  duration : ℚ
  sampleRate : ℕ
  channels : ℕ
deriving DecidableEq

/-- Outcome of `audioContext.decodeAudioData`: either a decoded buffer or a
decode error (rejected promise). -/
inductive DecodeOutcome
  | ok : Buf → DecodeOutcome
  | failed : DecodeOutcome
deriving DecidableEq

/-- `AudioEngine.loadAudioFile` (audio-engine.js lines 215-236).  On success the
decoded buffer is stored and both time anchors reset.  On decode failure the
`await` rejects before any assignment, the `catch` block logs and then
re-throws (`throw error`, line 234): the embedding returns `Except.error ()`
for the exception propagating out of `loadAudioFile`, and the engine state is
returned unchanged. -/
def Engine.loadAudioFile (e : Engine) (d : DecodeOutcome) : Engine × Except Unit LoadInfo :=
  match d with
  | DecodeOutcome.failed => (e, Except.error ())
  | DecodeOutcome.ok b =>
    ({ e with audioBuffer := some b, pauseTime := 0, startTime := 0 },
     Except.ok ⟨b.duration, b.sampleRate, b.channels⟩)

/-- Audio-relevant core of `DeskSongApp.playTrackAt` (app.js lines 244-289):
stop the engine, load the new track, and play; the surrounding `try`/`catch`
catches the error thrown by `loadAudioFile` and surfaces an error notification
(`showNotification('Failed to play track', 'error')`) instead of propagating
it.  The boolean result records whether the error notification was shown. -/
def playTrackAtLoad (e : Engine) (now : ℚ) (d : DecodeOutcome) : Engine × Bool :=
  let e1 := Engine.stop e
  match Engine.loadAudioFile e1 d with
  | (e2, Except.error _) => (e2, true)
  | (e2, Except.ok _) => (Engine.play e2 now, false)

/-- Playback state of the `AdvancedAudioEngine` class in ui-controller.js
(fields touched by its `stop`, lines 1195-1220): a current and a next source
node, playing and crossfading flags, and the two time anchors. -/
structure AdvEngine where
  audioBuffer : Option Buf
  nextAudioBuffer : Option Buf
  hasSource : Bool
  hasNextSource : Bool
  isPlaying : Bool
  isCrossfading : Bool
  pauseTime : ℚ
  startTime : ℚ
deriving DecidableEq

/-- `AdvancedAudioEngine.stop` (ui-controller.js lines 1195-1220): stops and
drops both source nodes (each `stop`/`disconnect` pair wrapped in try/catch so
already-stopped nodes never throw; the embedding is total), clears the playing
and crossfading flags and resets both anchors. -/
def AdvEngine.stop (a : AdvEngine) : AdvEngine :=
  { a with
    hasSource := false
    hasNextSource := false
    isPlaying := false
    isCrossfading := false
    pauseTime := 0
    startTime := 0 }

/-! ### Parameter-automation value model (for the ramp-cancellation claim)

Every knob setter in audio-engine.js issues the same three-call pattern on a
Web Audio `AudioParam`: `cancelScheduledValues(now)`,
`setValueAtTime(param.value, now)`, `linearRampToValueAtTime(target, now+d)`.
After that pattern the param's automation state is a single linear ramp:
value `startValue` up to `startTime`, linear interpolation on
`(startTime, endTime)`, and `endValue` afterwards.  `RampState` is that
canonical post-setter state and `valueAt` is the Web Audio value-at-time
function for it. -/

/-- Automation state of an `AudioParam` after a cancel / anchor / linear-ramp
triple: linear from `(startTime, startValue)` to `(endTime, endValue)`. -/
structure RampState where
  startTime : ℚ
  startValue : ℚ
  endTime : ℚ
  endValue : ℚ
deriving DecidableEq

/-- Web Audio value of a linearly ramping `AudioParam` at time `t`. -/
def RampState.valueAt (r : RampState) (t : ℚ) : ℚ :=
  if t ≤ r.startTime then r.startValue
  else if t < r.endTime then
    r.startValue + (r.endValue - r.startValue) * (t - r.startTime) / (r.endTime - r.startTime)
  else r.endValue

/-- `AudioEngine.setVolume` (audio-engine.js lines 369-377) acting on the gain
param's automation state at wall-clock `now`: it cancels pending automation,
anchors the param at its current (possibly mid-ramp) value
`this.gainNode.gain.value`, and ramps linearly to `value / 100` over 0.05 s
(5/100 here; rationals stand for the JS doubles). -/
def RampState.setVolumeAt (r : RampState) (now v : ℚ) : RampState :=
  ⟨now, r.valueAt now, now + 5/100, v / 100⟩

/-! ### Setter automation schedules (for the every-knob-ramps claim)

Each effect setter is embedded as the list of automation commands it issues on
each `AudioParam` it mutates, in source order.  `KnobUpdate.current` is the
param's live value (`param.value`) read by the setter's `setValueAtTime`
anchor call. -/

/-- One automation command issued on an `AudioParam`:
`cancelScheduledValues(now)`, `setValueAtTime(v, now)`, or
`linearRampToValueAtTime(v, now + dur)`. -/
inductive AutoCmd
  | cancelSched : AutoCmd
  | setNow : ℚ → AutoCmd
  | rampTo : ℚ → ℚ → AutoCmd
deriving DecidableEq

/-- The command sequence a setter issues on one `AudioParam`, together with
the param's current live value. -/
structure KnobUpdate where
  current : ℚ
  cmds : List AutoCmd
deriving DecidableEq

/-- The spec's ramp contract for one param mutation: cancel pending
automation, anchor at the param's current value, then a linear ramp of
positive duration to some target — never an instantaneous jump. -/
def IsRampFromCurrent (u : KnobUpdate) : Prop :=
  ∃ target dur,
    u.cmds = [AutoCmd.cancelSched, AutoCmd.setNow u.current, AutoCmd.rampTo target dur] ∧
    0 < dur

/-- A mutation applied instantaneously: a single `setValueAtTime(x, now)`. -/
def IsInstantSet (u : KnobUpdate) : Prop :=
  ∃ x, u.cmds = [AutoCmd.setNow x]

/-- `AudioEngine.setVolume` (audio-engine.js lines 369-377): one ramp on
`gainNode.gain` to `value / 100` over 0.05 s. -/
def setVolumeSched (gainCur value : ℚ) : List KnobUpdate :=
  [⟨gainCur, [AutoCmd.cancelSched, AutoCmd.setNow gainCur,
              AutoCmd.rampTo (value / 100) (5/100)]⟩]

/-- `AudioEngine.setReverbMix` (audio-engine.js lines 458-473): ramps
`dryGain.gain` to `1 - value/100` and `wetGain.gain` to `value/100`, each
over 0.1 s. -/
def setReverbMixSched (dryCur wetCur value : ℚ) : List KnobUpdate :=
  [⟨dryCur, [AutoCmd.cancelSched, AutoCmd.setNow dryCur,
             AutoCmd.rampTo (1 - value / 100) (1/10)]⟩,
   ⟨wetCur, [AutoCmd.cancelSched, AutoCmd.setNow wetCur,
             AutoCmd.rampTo (value / 100) (1/10)]⟩]

/-- `AudioEngine.setBassBoost` (audio-engine.js lines 475-485): ramps
`bassFilter.gain` to `(value/100)*20` dB over 0.1 s. -/
def setBassBoostSched (bassCur value : ℚ) : List KnobUpdate :=
  [⟨bassCur, [AutoCmd.cancelSched, AutoCmd.setNow bassCur,
              AutoCmd.rampTo (value / 100 * 20) (1/10)]⟩]

/-- `AudioEngine.setCompressor` (audio-engine.js lines 487-499): applies the
new threshold `-50 + (value/100)*40` and ratio `4 + (value/100)*16` with bare
`setValueAtTime(..., now)` calls — no cancel, no anchor, no ramp. -/
def setCompressorSched (thresholdCur ratioCur value : ℚ) : List KnobUpdate :=
  [⟨thresholdCur, [AutoCmd.setNow (-50 + value / 100 * 40)]⟩,
   ⟨ratioCur, [AutoCmd.setNow (4 + value / 100 * 16)]⟩]

/-- `AudioEngine.setDelayMix` (audio-engine.js lines 501-527): clamps the
input to [0,100], then ramps `delayNode.delayTime` to
`0.08 + (0.6 - 0.08)*mix`, `delayFeedback.gain` to `0.1 + mix*0.6` and
`delayWetGain.gain` to `mix*0.9`, each over 0.12 s. -/
def setDelayMixSched (delayTimeCur feedbackCur wetCur value : ℚ) : List KnobUpdate :=
  let m := max 0 (min 100 value) / 100
  [⟨delayTimeCur, [AutoCmd.cancelSched, AutoCmd.setNow delayTimeCur,
                   AutoCmd.rampTo (8/100 + (6/10 - 8/100) * m) (12/100)]⟩,
   ⟨feedbackCur, [AutoCmd.cancelSched, AutoCmd.setNow feedbackCur,
                  AutoCmd.rampTo (1/10 + m * (6/10)) (12/100)]⟩,
   ⟨wetCur, [AutoCmd.cancelSched, AutoCmd.setNow wetCur,
             AutoCmd.rampTo (m * (9/10)) (12/100)]⟩]

/-- `AudioEngine.setChorusMix` (audio-engine.js lines 529-551): clamps the
input to [0,100], ramps `chorusDepth.gain` to `0.001 + mix*0.004` and
`chorusWetGain.gain` to `mix*0.8` over 0.12 s, but applies the LFO rate
`0.3 + mix*1.2` with a bare `setValueAtTime` (line 546). -/
def setChorusMixSched (depthCur freqCur wetCur value : ℚ) : List KnobUpdate :=
  let m := max 0 (min 100 value) / 100
  [⟨depthCur, [AutoCmd.cancelSched, AutoCmd.setNow depthCur,
               AutoCmd.rampTo (1/1000 + m * (4/1000)) (12/100)]⟩,
   ⟨freqCur, [AutoCmd.setNow (3/10 + m * (12/10))]⟩,
   ⟨wetCur, [AutoCmd.cancelSched, AutoCmd.setNow wetCur,
             AutoCmd.rampTo (m * (8/10)) (12/100)]⟩]

/-- The claim of the spec, formalized: every one of the six knob setters
schedules every one of its parameter mutations as a ramp from the parameter's
current value (never an instantaneous jump). -/
def EveryKnobSetterRamps : Prop :=
  (∀ g v, ∀ u ∈ setVolumeSched g v, IsRampFromCurrent u) ∧
  (∀ a b v, ∀ u ∈ setReverbMixSched a b v, IsRampFromCurrent u) ∧
  (∀ a v, ∀ u ∈ setBassBoostSched a v, IsRampFromCurrent u) ∧
  (∀ a b v, ∀ u ∈ setCompressorSched a b v, IsRampFromCurrent u) ∧
  (∀ a b c v, ∀ u ∈ setDelayMixSched a b c v, IsRampFromCurrent u) ∧
  (∀ a b c v, ∀ u ∈ setChorusMixSched a b c v, IsRampFromCurrent u)

/-! ### Presets -/

/-- The resolved configuration returned by the advanced variant's
`applyPreset` (audio-engine.js lines 553-577). -/
structure PresetConfig where
  reverb : ℚ
  pitch : ℚ
  speed : ℚ
  delay : ℚ
  chorus : ℚ
deriving DecidableEq

/-- The preset table of the advanced variant's `applyPreset`
(audio-engine.js lines 555-562); 1.25 and 0.75 are written 5/4 and 3/4. -/
def presetTable : List (String × PresetConfig) :=
  [(r"concert", ⟨40, 0, 1, 25, 12⟩),
   (r"studio", ⟨15, 0, 1, 10, 8⟩),
   (r"radio", ⟨5, 1, 1, 0, 0⟩),
   (r"nightcore", ⟨10, 4, 5/4, 8, 30⟩),
   (r"slowed", ⟨60, -2, 3/4, 45, 16⟩),
   (r"default", ⟨0, 0, 1, 0, 0⟩)]

/-- The advanced variant's `applyPreset` lookup and returned copy
(`presets[preset] || presets['default']`, line 564; `return {...config}`,
line 576).  The fallback is the table's `default` entry, inlined. -/
def applyPreset (name : String) : PresetConfig :=
  match presetTable.lookup name with
  | some c => c
  | none => ⟨0, 0, 1, 0, 0⟩

/-- The resolved configuration returned by the basic variant's `applyPreset`
(audio-engine.js lines 1060-1094), which resolves only reverb, pitch and
speed. -/
structure BasicPresetConfig where
  reverb : ℚ
  pitch : ℚ
  speed : ℚ
deriving DecidableEq

/-- The preset table of the basic variant's `applyPreset`
(audio-engine.js lines 1062-1069). -/
def basicPresetTable : List (String × BasicPresetConfig) :=
  [(r"concert", ⟨40, 0, 1⟩),
   (r"studio", ⟨15, 0, 1⟩),
   (r"radio", ⟨5, 1, 1⟩),
   (r"nightcore", ⟨10, 4, 5/4⟩),
   (r"slowed", ⟨60, -2, 3/4⟩),
   (r"default", ⟨0, 0, 1⟩)]

/-- The basic variant's `applyPreset` lookup (audio-engine.js line 1071). -/
def basicApplyPreset (name : String) : BasicPresetConfig :=
  match basicPresetTable.lookup name with
  | some c => c
  | none => ⟨0, 0, 1⟩

/-! ### Live and offline DSP graphs

The live graph is wired by `initializeAudioContext` (delay and chorus internal
wiring, audio-engine.js lines 86-116), `setupAudioChain` (lines 182-213) and
`play` (`sourceNode.connect(gainNode)`, line 256).  The offline graph is wired
by `exportProcessedAudio` (lines 579-670).  Each `connect` call is one edge;
the connection `chorusDepth.connect(chorusDelay.delayTime)` (an audio-rate
param modulation) is the edge `(chorusDepth, chorusDelay)`. -/

/-- The audio nodes appearing in either graph. -/
inductive NodeId
  | source | gain | bass | comp
  | dry | conv | wet
  | delayIn | delayNode | delayFb | delayWet
  | chorusIn | chorusDelay | chorusDepth | chorusLFO | chorusWet
  | analyser | dest
deriving DecidableEq

/-- Edges of the live playback graph, one per `connect` call:
`play` line 256, `setupAudioChain` lines 188-210, and the delay/chorus wiring
from `initializeAudioContext` lines 95-98 and 109-115. -/
def liveEdges : List (NodeId × NodeId) :=
  [(NodeId.source, NodeId.gain),
   (NodeId.gain, NodeId.bass),
   (NodeId.bass, NodeId.comp),
   (NodeId.comp, NodeId.dry),
   (NodeId.comp, NodeId.conv),
   (NodeId.conv, NodeId.wet),
   (NodeId.comp, NodeId.delayIn),
   (NodeId.delayWet, NodeId.analyser),
   (NodeId.comp, NodeId.chorusIn),
   (NodeId.chorusWet, NodeId.analyser),
   (NodeId.dry, NodeId.analyser),
   (NodeId.wet, NodeId.analyser),
   (NodeId.analyser, NodeId.dest),
   (NodeId.delayIn, NodeId.delayNode),
   (NodeId.delayNode, NodeId.delayFb),
   (NodeId.delayFb, NodeId.delayNode),
   (NodeId.delayNode, NodeId.delayWet),
   (NodeId.chorusIn, NodeId.chorusDelay),
   (NodeId.chorusDelay, NodeId.chorusWet),
   (NodeId.chorusLFO, NodeId.chorusDepth),
   (NodeId.chorusDepth, NodeId.chorusDelay)]

/-- Edges of the offline export graph, one per `connect` call in
`exportProcessedAudio` (audio-engine.js lines 621-624, 641-644, 647-656). -/
def offlineEdges : List (NodeId × NodeId) :=
  [(NodeId.source, NodeId.gain),
   (NodeId.gain, NodeId.dry),
   (NodeId.gain, NodeId.conv),
   (NodeId.gain, NodeId.delayIn),
   (NodeId.gain, NodeId.chorusIn),
   (NodeId.conv, NodeId.wet),
   (NodeId.dry, NodeId.dest),
   (NodeId.wet, NodeId.dest),
   (NodeId.delayWet, NodeId.dest),
   (NodeId.chorusWet, NodeId.dest),
   (NodeId.delayIn, NodeId.delayNode),
   (NodeId.delayNode, NodeId.delayFb),
   (NodeId.delayFb, NodeId.delayNode),
   (NodeId.delayNode, NodeId.delayWet),
   (NodeId.chorusIn, NodeId.chorusDelay),
   (NodeId.chorusDelay, NodeId.chorusWet),
   (NodeId.chorusLFO, NodeId.chorusDepth),
   (NodeId.chorusDepth, NodeId.chorusDelay)]

/-- All nodes mentioned by a graph's edge list. -/
def nodesOf (es : List (NodeId × NodeId)) : List NodeId :=
  es.map Prod.fst ++ es.map Prod.snd

/-- The effect-stage nodes (everything except the source, the pass-through
analyser tap, and the destination sink). -/
def effectStageNodes : List NodeId :=
  [NodeId.gain, NodeId.bass, NodeId.comp, NodeId.dry, NodeId.conv, NodeId.wet,
   NodeId.delayIn, NodeId.delayNode, NodeId.delayFb, NodeId.delayWet,
   NodeId.chorusIn, NodeId.chorusDelay, NodeId.chorusDepth, NodeId.chorusLFO,
   NodeId.chorusWet]

/-- Whether live playback and offline export contain the same effect
stages. -/
def sameEffectStages : Bool :=
  effectStageNodes.all
    (fun n => (nodesOf liveEdges).contains n == (nodesOf offlineEdges).contains n)

/-- Parameter values of the effect stages shared by the live and offline
graphs. -/
structure ChainValues where
  gainV : ℚ
  dryV : ℚ
  wetV : ℚ
  delayInV : ℚ
  delayTimeV : ℚ
  delayFeedbackV : ℚ
  delayWetV : ℚ
  chorusInV : ℚ
  chorusDelayTimeV : ℚ
  chorusDepthV : ℚ
  chorusRateV : ℚ
  chorusWetV : ℚ
deriving DecidableEq

/-- Steady-state (post-ramp) values of the live chain's shared stages, as
established by the constructor defaults and the setters: `setReverbMix`
targets (lines 467, 471), the delay targets of `setDelayMix`
(lines 510-514), the chorus targets of `setChorusMix` (lines 538-540), the
fixed input gains (lines 88, 102) and the chorus base delay (line 104);
decimals written as fractions. -/
def liveSteadyValues (p : EngineParams) : ChainValues :=
  { gainV := p.gainValue
    dryV := 1 - p.reverbMix
    wetV := p.reverbMix
    delayInV := 1
    delayTimeV := 8/100 + (6/10 - 8/100) * p.delayMix
    delayFeedbackV := 1/10 + p.delayMix * (6/10)
    delayWetV := p.delayMix * (9/10)
    chorusInV := 1
    chorusDelayTimeV := 15/1000
    chorusDepthV := 1/1000 + p.chorusMix * (4/1000)
    chorusRateV := 3/10 + p.chorusMix * (12/10)
    chorusWetV := p.chorusMix * (8/10) }

/-- Values assigned to the offline nodes by `exportProcessedAudio`
(audio-engine.js lines 596-640): gain copies the live `gainNode.gain.value`,
dry/wet from `this.reverbMix`, the delay stage from `this.delayMix`
(`baseDelay 0.08`, `maxDelay 0.6`, lines 613-620), the chorus stage from
`this.chorusMix` (lines 633-640). -/
def offlineValues (p : EngineParams) : ChainValues :=
  { gainV := p.gainValue
    dryV := 1 - p.reverbMix
    wetV := p.reverbMix
    delayInV := 1
    delayTimeV := 8/100 + (6/10 - 8/100) * p.delayMix
    delayFeedbackV := 1/10 + p.delayMix * (6/10)
    delayWetV := p.delayMix * (9/10)
    chorusInV := 1
    chorusDelayTimeV := 15/1000
    chorusDepthV := 1/1000 + p.chorusMix * (4/1000)
    chorusRateV := 3/10 + p.chorusMix * (12/10)
    chorusWetV := p.chorusMix * (8/10) }

/-- Node renaming that contracts the stages absent from the offline graph
into their predecessor or successor: the bass filter and compressor collapse
onto the gain stage, the analyser tap onto the destination. -/
def contractNode : NodeId → NodeId
  | NodeId.bass => NodeId.gain
  | NodeId.comp => NodeId.gain
  | NodeId.analyser => NodeId.dest
  | n => n

/-- Apply `contractNode` to every edge and drop the self-loops the collapse
creates. -/
def contractEdges (es : List (NodeId × NodeId)) : List (NodeId × NodeId) :=
  (es.map (fun e => (contractNode e.1, contractNode e.2))).filter
    (fun e => ¬ (e.1 == e.2))

/-- Two edge lists describe the same graph (mutual containment). -/
def edgeSetEq (xs ys : List (NodeId × NodeId)) : Bool :=
  xs.all (fun e => ys.contains e) && ys.all (fun e => xs.contains e)

/-- Default engine parameters after `initializeAudioContext`: gain 1
(createGain default), bass 0 dB (line 70), compressor threshold −24 dB and
ratio 12 (lines 74, 76), all mixes 0 (constructor lines 33, 39, 40). -/
def pDefault : EngineParams :=
  ⟨1, 0, -24, 12, 0, 0, 0⟩

/-- The offline render session built by `exportProcessedAudio` on the success
path: the offline graph, its static parameter values, the source buffer and
the source playback rate (`source.playbackRate.value = this.actualPlaybackRate`,
line 594, after `updateActualPlaybackRate`). -/
structure OfflineRender where
  edges : List (NodeId × NodeId)
  values : ChainValues
  sourceBuf : Buf
  sourceRate : ℚ
deriving DecidableEq

/-- `AudioEngine.exportProcessedAudio` (audio-engine.js lines 579-670).
`if (!this.audioBuffer) return null;` (line 580) precedes the creation of the
`OfflineAudioContext`, the render, and the `progressCallback(100)` call
(lines 665-667).  The first component is the render result (`none` models the
`null` return), the second the list of arguments passed to the progress
callback. -/
def Engine.exportProcessedAudio (e : Engine) : Option OfflineRender × List ℕ :=
  match e.audioBuffer with
  | none => (none, [])
  | some b =>
    (some ⟨offlineEdges, offlineValues e.fx, b, e.playbackRate⟩, [100])

/-! ### WAV container writer

`DeskSongApp.audioBufferToWav` (app.js lines 396-450) serializes a rendered
`AudioBuffer` into a RIFF/WAVE container through little-endian `DataView`
writes.  A buffer is modelled by its per-channel sample lists (rationals in
place of 32-bit floats), its sample rate, and its per-channel sample count
(`buffer.length`). -/

/-- A rendered audio buffer as read by `audioBufferToWav`. -/
structure WavBuffer where
  channels : List (List ℚ)
  sampleRate : ℕ
  numSamples : ℕ
deriving DecidableEq

/-- Little-endian 16-bit write (`DataView.setUint16(pos, v, true)`). -/
def le16 (v : ℕ) : List ℕ :=
  [v % 256, v / 256 % 256]

/-- Little-endian 32-bit write (`DataView.setUint32(pos, v, true)`). -/
def le32 (v : ℕ) : List ℕ :=
  [v % 256, v / 256 % 256, v / 65536 % 256, v / 16777216 % 256]

/-- `Math.max(-1, Math.min(1, sample))` (app.js line 441). -/
def clampSample (s : ℚ) : ℚ :=
  max (-1) (min 1 s)

/-- `sample < 0 ? sample * 0x8000 : sample * 0x7FFF` applied to the clamped
sample (app.js line 442). -/
def scaleSample (s : ℚ) : ℚ :=
  if clampSample s < 0 then clampSample s * 32768 else clampSample s * 32767

/-- JavaScript ToIntegerOrInfinity truncation (toward zero) of a rational. -/
def jsTruncQ (q : ℚ) : ℤ :=
  if 0 ≤ q then ⌊q⌋ else ⌈q⌉

/-- `DataView.setInt16(pos, v, true)`: truncate toward zero, wrap modulo
2^16, store little-endian. -/
def int16Bytes (q : ℚ) : List ℕ :=
  ((jsTruncQ q) % 65536).toNat % 256 :: [((jsTruncQ q) % 65536).toNat / 256 % 256]

/-- One iteration of the interleaving loop body (app.js lines 440-445):
for each channel in order, write the scaled sample at `off` as a 16-bit
little-endian word.  Reading past a channel's end (JS `undefined`, which the
clamp/scale/`setInt16` pipeline turns into a zero word) is modelled by the
default 0. -/
def frameBytes (channels : List (List ℚ)) (off : ℕ) : List ℕ :=
  channels.foldr (fun ch acc => int16Bytes (scaleSample (ch.getD off 0)) ++ acc) []

/-- The interleaved data section produced by the `while (pos < length)` loop
(app.js lines 439-447): with at least one channel the loop runs exactly
`numSamples` iterations, one frame per sample offset in increasing order. -/
def pcmData (channels : List (List ℚ)) (n : ℕ) : List ℕ :=
  (List.range n).foldr (fun off acc => frameBytes channels off ++ acc) []

/-- `DeskSongApp.audioBufferToWav` (app.js lines 396-450): total byte length
`length = buffer.length * numberOfChannels * 2 + 44` (line 397), the RIFF
header writes of lines 416-432 in order (magic numbers as in the source;
`setUint32(length - pos - 4)` at line 432 has `pos = 40`), then the
interleaved 16-bit data. -/
def audioBufferToWav (buf : WavBuffer) : List ℕ :=
  let numCh := buf.channels.length
  let len := buf.numSamples * numCh * 2 + 44
  le32 0x46464952 ++ le32 (len - 8) ++ le32 0x45564157 ++
  le32 0x20746d66 ++ le32 16 ++ le16 1 ++ le16 numCh ++ le32 buf.sampleRate ++
  le32 (buf.sampleRate * 2 * numCh) ++ le16 (numCh * 2) ++ le16 16 ++
  le32 0x61746164 ++ le32 (len - 40 - 4) ++
  pcmData buf.channels buf.numSamples

/-- The §6 export layout, written from the spec's words: ASCII `"RIFF"`,
little-endian u32 file length − 8, ASCII `"WAVE"`; `"fmt "` sub-chunk of size
16 with PCM tag 1, channel count, sample rate, byte rate `sampleRate×2×channels`,
block align `channels×2`, bits-per-sample 16; `"data"` sub-chunk of length
`sampleCount×channels×2` holding interleaved signed 16-bit samples clamped to
[−1,1] and scaled by 32768 (negative) or 32767 (positive). -/
def wavSpecBytes (buf : WavBuffer) : List ℕ :=
  let c := buf.channels.length
  let n := buf.numSamples
  let fileLen := n * c * 2 + 44
  [82, 73, 70, 70] ++ le32 (fileLen - 8) ++ [87, 65, 86, 69] ++
  [102, 109, 116, 32] ++ le32 16 ++ le16 1 ++ le16 c ++ le32 buf.sampleRate ++
  le32 (buf.sampleRate * 2 * c) ++ le16 (c * 2) ++ le16 16 ++
  [100, 97, 116, 97] ++ le32 (n * c * 2) ++
  ((List.range n).map
    (fun off => (buf.channels.map
      (fun ch => int16Bytes (scaleSample (ch.getD off 0)))).flatten)).flatten

/-! ## Theorems -/

/-- C9: `stop()` is an idempotent teardown in both engine classes: a second
call (total, no exception — the node teardown is try/catch-guarded) changes
nothing, and after `stop()` the logical offset is 0 and the engine is not
playing.  Holds for `AudioEngine.stop` (audio-engine.js lines 295-309) and
for `AdvancedAudioEngine.stop` (ui-controller.js lines 1195-1220). -/
theorem stop_twice_idempotent_offset_zero (e : Engine) (a : AdvEngine) :
    Engine.stop (Engine.stop e) = Engine.stop e ∧
    (Engine.stop e).pauseTime = 0 ∧
    (Engine.stop e).isPlaying = false ∧
    AdvEngine.stop (AdvEngine.stop a) = AdvEngine.stop a ∧
    (AdvEngine.stop a).pauseTime = 0 ∧
    (AdvEngine.stop a).isPlaying = false :=
  ⟨rfl, rfl, rfl, rfl, rfl, rfl⟩

/-- C10: with no decoded buffer present, `exportProcessedAudio` returns null,
starts no offline render and never invokes the progress callback. -/
theorem exportProcessedAudio_no_buffer (e : Engine) (h : e.audioBuffer = none) :
    Engine.exportProcessedAudio e = (none, []) := by
  simp [Engine.exportProcessedAudio, h]

/-- An engine in its post-constructor state (no buffer loaded), used as the
concrete input of the C10 witness. -/
def engineNoTrack : Engine :=
  ⟨none, 0, 0, false, false, 1, 0, 1, pDefault⟩

/-- Witness for C10 at a concrete engine with no loaded track. -/
theorem exportProcessedAudio_no_buffer_witness :
    engineNoTrack.audioBuffer = none ∧
    Engine.exportProcessedAudio engineNoTrack = (none, []) :=
  ⟨rfl, exportProcessedAudio_no_buffer engineNoTrack rfl⟩

/-- Concrete engine used for the C3 counterexample: a 10-second track loaded,
paused at offset 2. -/
def enginePriorTrack : Engine :=
  ⟨some ⟨10, 44100, 2⟩, 2, 0, false, false, 1, 0, 1, pDefault⟩

/-- C3 counterexample: on a failed decode, `loadAudioFile` does NOT return a
null/failure value to its caller — it re-throws the decode error
(`throw error`, audio-engine.js line 234), modelled as `Except.error ()`
propagating out of the call.  The prior engine state is left unchanged, but
the claimed "returns a failure signal rather than throwing across the
transport API" is false: the result of the call is a thrown exception, not a
returned failure value. -/
theorem loadAudioFile_failure_throws :
    (Engine.loadAudioFile enginePriorTrack DecodeOutcome.failed).2 = Except.error () ∧
    ¬ ∃ r, (Engine.loadAudioFile enginePriorTrack DecodeOutcome.failed).2 = Except.ok r :=
  ⟨rfl, by intro ⟨r, hr⟩; simp [Engine.loadAudioFile] at hr⟩

/-- C3 amended: on decode failure `loadAudioFile` leaves the prior playback
state (buffer, logical position, playing flag) unchanged and propagates the
decode error as a thrown exception; the caller `playTrackAt` catches that
exception and surfaces an error notification instead of crashing, so the
failure stays local to the load attempt. -/
theorem loadAudioFile_failure_state_preserved (e : Engine) (now : ℚ) :
    Engine.loadAudioFile e DecodeOutcome.failed = (e, Except.error ()) ∧
    playTrackAtLoad e now DecodeOutcome.failed = (Engine.stop e, true) :=
  ⟨rfl, rfl⟩

/-- C5: each named preset resolves to the §6 configuration; in particular
`applyPreset("nightcore")` returns reverb 10, pitch 4, speed 1.25 (= 5/4),
delay 8, chorus 30.  The advanced variant (audio-engine.js lines 553-577)
returns all five knobs; the basic variant (lines 1060-1094) resolves the
same reverb/pitch/speed triple for every preset name. -/
theorem applyPreset_resolves_spec_values :
    applyPreset r"nightcore" = ⟨10, 4, 5/4, 8, 30⟩ ∧
    applyPreset r"concert" = ⟨40, 0, 1, 25, 12⟩ ∧
    applyPreset r"studio" = ⟨15, 0, 1, 10, 8⟩ ∧
    applyPreset r"radio" = ⟨5, 1, 1, 0, 0⟩ ∧
    applyPreset r"slowed" = ⟨60, -2, 3/4, 45, 16⟩ ∧
    applyPreset r"default" = ⟨0, 0, 1, 0, 0⟩ ∧
    basicApplyPreset r"nightcore" = ⟨10, 4, 5/4⟩ ∧
    basicApplyPreset r"concert" = ⟨40, 0, 1⟩ ∧
    basicApplyPreset r"studio" = ⟨15, 0, 1⟩ ∧
    basicApplyPreset r"radio" = ⟨5, 1, 1⟩ ∧
    basicApplyPreset r"slowed" = ⟨60, -2, 3/4⟩ ∧
    basicApplyPreset r"default" = ⟨0, 0, 1⟩ :=
  ⟨rfl, rfl, rfl, rfl, rfl, rfl, rfl, rfl, rfl, rfl, rfl, rfl⟩

/-- Concrete engine for the C1 evaluation: a 10-second track loaded, paused
at prior logical offset 1 s, speed 1.0 (inside the claimed [0.25, 2.0]
range). -/
def enginePaused1 : Engine :=
  ⟨some ⟨10, 44100, 2⟩, 1, 0, false, false, 1, 0, 1, pDefault⟩

/-- C1 evaluated at the failing input: `play()` at wall-clock 0 from prior
offset 1 at speed 1, then `currentPosition()` at elapsed Δ.  The claim says
`priorOffset + Δ×speed` (1.0 at Δ=0, 4.0 at Δ=3); the code returns
`2×priorOffset + Δ×speed` (2.0 at Δ=0, 5.0 at Δ=3), because `play` anchors
`startTime = now − offset/rate` (line 273) while `getCurrentTime` adds
`pauseTime` on top of `(now − startTime)×rate` (line 346), counting the prior
offset twice.  (`pause`, line 282, doubles it the same way, even though the
basic variant's own comment at line 932 says not to multiply the elapsed term
this way.) -/
theorem getCurrentTime_after_play_doubles_offset :
    Engine.getCurrentTime (Engine.play enginePaused1 0) 0 = 2 ∧
    Engine.getCurrentTime (Engine.play enginePaused1 0) 3 = 5 ∧
    Engine.getCurrentTime (Engine.play enginePaused1 0) 0 ≠
      enginePaused1.pauseTime + 0 * enginePaused1.actualPlaybackRate := by
  have hplay : Engine.play enginePaused1 0 =
      ⟨some ⟨10, 44100, 2⟩, 1, -1, true, true, 1, 0, 1, pDefault⟩ := by
    simp [Engine.play, Engine.updateActualPlaybackRate, enginePaused1]
  refine ⟨?_, ?_, ?_⟩ <;> rw [hplay] <;>
    norm_num [Engine.getCurrentTime, enginePaused1, min_def]

/-- C8: `seek(t)` clamps its target to `[0, duration]` (mapping `t < 0` to 0
and `t > duration` to `duration`), and `currentPosition()` read immediately
after the seek (before the 10 ms deferred resume fires) returns exactly the
post-clamp target, whether the engine was playing or paused when `seek` was
called. -/
theorem seek_clamps_and_position_reads_target (e : Engine) (b : Buf)
    (now t u : ℚ) (hb : e.audioBuffer = some b) (hd : 0 ≤ b.duration) :
    (e.seek now t).pauseTime = max 0 (min t b.duration) ∧
    (e.seek now t).getCurrentTime u = max 0 (min t b.duration) ∧
    (t < 0 → (e.seek now t).pauseTime = 0) ∧
    (b.duration < t → (e.seek now t).pauseTime = b.duration) := by
  have hmain : (e.seek now t).pauseTime = max 0 (min t b.duration) ∧
      (e.seek now t).getCurrentTime u = max 0 (min t b.duration) := by
    by_cases hp : e.isPlaying <;>
      simp [Engine.seek, hb, Engine.getCurrentTime, hp]
  refine ⟨hmain.1, hmain.2, ?_, ?_⟩
  · intro hneg
    rw [hmain.1, max_eq_left (le_trans (min_le_left t b.duration) hneg.le)]
  · intro hbig
    rw [hmain.1, min_eq_right hbig.le, max_eq_right hd]

/-- Concrete engine for the C8 witness: playing a 10-second track. -/
def enginePlaying10 : Engine :=
  ⟨some ⟨10, 44100, 2⟩, 4, 0, true, true, 1, 0, 1, pDefault⟩

/-- Witness for C8 at a concrete playing engine and an out-of-range target
`t = -3` (which clamps to 0). -/
theorem seek_clamps_witness :
    enginePlaying10.audioBuffer = some ⟨10, 44100, 2⟩ ∧
    (0:ℚ) ≤ (⟨10, 44100, 2⟩ : Buf).duration ∧
    ((enginePlaying10.seek 5 (-3)).pauseTime =
        max 0 (min (-3) (⟨10, 44100, 2⟩ : Buf).duration) ∧
      (enginePlaying10.seek 5 (-3)).getCurrentTime 7 =
        max 0 (min (-3) (⟨10, 44100, 2⟩ : Buf).duration) ∧
      ((-3:ℚ) < 0 → (enginePlaying10.seek 5 (-3)).pauseTime = 0) ∧
      ((⟨10, 44100, 2⟩ : Buf).duration < -3 →
        (enginePlaying10.seek 5 (-3)).pauseTime = (⟨10, 44100, 2⟩ : Buf).duration)) :=
  ⟨rfl, by norm_num,
   seek_clamps_and_position_reads_target enginePlaying10 ⟨10, 44100, 2⟩ 5 (-3) 7
     rfl (by norm_num)⟩

/-- C6 counterexample: the claim that every knob setter ramps is false —
`setCompressor` (audio-engine.js lines 487-499) mutates the compressor
threshold (here from its default −24 dB to −50 dB at input 0) with a bare
`setValueAtTime`, an instantaneous jump with no cancel/anchor/ramp triple. -/
theorem not_every_knob_setter_ramps : ¬ EveryKnobSetterRamps := by
  intro h
  obtain ⟨-, -, -, h4, -, -⟩ := h
  have hmem : (⟨-24, [AutoCmd.setNow (-50 + 0 / 100 * 40)]⟩ : KnobUpdate) ∈
      setCompressorSched (-24) 12 0 := List.mem_cons_self _ _
  obtain ⟨target, dur, heq, -⟩ := h4 (-24) 12 0 _ hmem
  simp at heq

/-- C6 amended: `setVolume`, `setReverbMix`, `setBassBoost` and `setDelayMix`
schedule every parameter mutation as a ramp from the parameter's current value
over a fixed positive duration; `setChorusMix` ramps its depth and wet-gain
mutations but applies the LFO rate as an instantaneous `setValueAtTime`; and
`setCompressor` applies both its threshold and ratio mutations
instantaneously, with no ramp at all. -/
theorem knob_setters_ramp_except_compressor_and_lfo :
    (∀ g v, ∀ u ∈ setVolumeSched g v, IsRampFromCurrent u) ∧
    (∀ a b v, ∀ u ∈ setReverbMixSched a b v, IsRampFromCurrent u) ∧
    (∀ a v, ∀ u ∈ setBassBoostSched a v, IsRampFromCurrent u) ∧
    (∀ a b c v, ∀ u ∈ setDelayMixSched a b c v, IsRampFromCurrent u) ∧
    (∀ a b c v, ∃ d f w, setChorusMixSched a b c v = [d, f, w] ∧
      IsRampFromCurrent d ∧ IsInstantSet f ∧ IsRampFromCurrent w) ∧
    (∀ a b v, ∃ th ra, setCompressorSched a b v = [th, ra] ∧
      IsInstantSet th ∧ IsInstantSet ra) := by
  refine ⟨?_, ?_, ?_, ?_, ?_, ?_⟩
  · intro g v u hu
    simp only [setVolumeSched, List.mem_singleton] at hu
    exact hu ▸ ⟨_, _, rfl, by norm_num⟩
  · intro a b v u hu
    simp only [setReverbMixSched, List.mem_cons, List.mem_singleton,
      List.not_mem_nil, or_false] at hu
    rcases hu with hu | hu <;> exact hu ▸ ⟨_, _, rfl, by norm_num⟩
  · intro a v u hu
    simp only [setBassBoostSched, List.mem_singleton] at hu
    exact hu ▸ ⟨_, _, rfl, by norm_num⟩
  · intro a b c v u hu
    simp only [setDelayMixSched, List.mem_cons, List.not_mem_nil, or_false] at hu
    rcases hu with hu | hu | hu <;> exact hu ▸ ⟨_, _, rfl, by norm_num⟩
  · intro a b c v
    exact ⟨_, _, _, rfl, ⟨_, _, rfl, by norm_num⟩, ⟨_, rfl⟩, ⟨_, _, rfl, by norm_num⟩⟩
  · intro a b v
    exact ⟨_, _, rfl, ⟨_, rfl⟩, ⟨_, rfl⟩⟩

/-- C2 counterexample: the offline export graph does not contain the same
effect stages as the live chain — the live chain routes the signal through
the bass low-shelf filter and the dynamics compressor
(`setupAudioChain`, audio-engine.js lines 188-189), while
`exportProcessedAudio` connects its gain node directly to the dry/wet split
and the sends (lines 648-651), omitting both stages; so the claimed
stage-for-stage equality (with equal current parameter values, here at the
post-constructor defaults) is false. -/
theorem offline_graph_misses_live_stages :
    ¬ (sameEffectStages = true ∧ offlineValues pDefault = liveSteadyValues pDefault) := by
  intro h
  have h1 := h.1
  have h2 : sameEffectStages = false := by decide
  rw [h2] at h1
  exact Bool.noConfusion h1

/-- C2 amended: the offline export graph is exactly the live graph with the
bass filter and compressor stages omitted (and the pass-through analyser tap
collapsed into the destination): contracting those three nodes in the live
edge list yields precisely the offline edge list, preserving the order of all
remaining stages; and every shared effect stage carries the same current
parameter value in the offline render as its live steady-state value. -/
theorem offline_graph_is_live_graph_minus_bass_compressor (p : EngineParams) :
    edgeSetEq (contractEdges liveEdges) offlineEdges = true ∧
    offlineValues p = liveSteadyValues p ∧
    (nodesOf liveEdges).contains NodeId.bass = true ∧
    (nodesOf liveEdges).contains NodeId.comp = true ∧
    (nodesOf offlineEdges).contains NodeId.bass = false ∧
    (nodesOf offlineEdges).contains NodeId.comp = false :=
  ⟨by decide, rfl, by decide, by decide, by decide, by decide⟩

/-- On a ramp that has not yet ended, the distance of the value to the ramp
end value factors through the remaining time fraction. -/
theorem RampState.valueAt_sub_endValue (r : RampState)
    (hse : r.startTime < r.endTime) (x : ℚ) (hx : r.startTime ≤ x)
    (hxe : x < r.endTime) :
    r.valueAt x - r.endValue =
      (r.startValue - r.endValue) * (r.endTime - x) / (r.endTime - r.startTime) := by
  have hD : (0:ℚ) < r.endTime - r.startTime := by linarith
  rcases eq_or_lt_of_le hx with heq | hlt
  · rw [RampState.valueAt, if_pos heq.ge, ← heq]
    rw [mul_div_assoc, div_self (ne_of_gt hD), mul_one]
  · rw [RampState.valueAt, if_neg (not_le.mpr hlt), if_pos hxe]
    field_simp
    ring
/-- After the ramp end the value equals the ramp's end value. -/
theorem RampState.valueAt_of_ended (r : RampState)
    (hse : r.startTime < r.endTime) (t : ℚ) (ht : r.endTime ≤ t) :
    r.valueAt t = r.endValue := by
  rw [RampState.valueAt, if_neg (not_le.mpr (lt_of_lt_of_le hse ht)),
    if_neg (not_lt.mpr ht)]

/-- From any instant at or after the ramp start, the distance of the ramping
value to the ramp's end value never increases: the value monotonically
approaches its target. -/
theorem RampState.dist_to_target_antitone (r : RampState)
    (hse : r.startTime < r.endTime) (t u : ℚ) (ht : r.startTime ≤ t)
    (htu : t ≤ u) :
    |r.valueAt u - r.endValue| ≤ |r.valueAt t - r.endValue| := by
  have hD : (0:ℚ) < r.endTime - r.startTime := by linarith
  by_cases hu : u < r.endTime
  · have hte : t < r.endTime := lt_of_le_of_lt htu hu
    rw [r.valueAt_sub_endValue hse t ht hte,
      r.valueAt_sub_endValue hse u (le_trans ht htu) hu,
      abs_div, abs_div, abs_mul, abs_mul,
      abs_of_pos (show (0:ℚ) < r.endTime - u by linarith),
      abs_of_pos (show (0:ℚ) < r.endTime - t by linarith)]
    gcongr
  · rw [r.valueAt_of_ended hse u (not_lt.mp hu)]
    simp [abs_nonneg]

/-- The value of a ramp always lies between its start and end values. -/
theorem RampState.value_between (r : RampState)
    (hse : r.startTime < r.endTime) (t : ℚ) :
    min r.startValue r.endValue ≤ r.valueAt t ∧
    r.valueAt t ≤ max r.startValue r.endValue := by
  have hD : (0:ℚ) < r.endTime - r.startTime := by linarith
  rw [RampState.valueAt]
  split_ifs with h1 h2
  · exact ⟨min_le_left _ _, le_max_left _ _⟩
  · push_neg at h1
    have hq0 : 0 ≤ (t - r.startTime) / (r.endTime - r.startTime) :=
      div_nonneg (by linarith) hD.le
    have hq1 : (t - r.startTime) / (r.endTime - r.startTime) ≤ 1 :=
      (div_le_one hD).mpr (by linarith)
    rw [mul_div_assoc]
    rcases le_total r.startValue r.endValue with hab | hab
    · rw [min_eq_left hab, max_eq_right hab]
      constructor
      · nlinarith [mul_nonneg (sub_nonneg.mpr hab) hq0]
      · nlinarith [mul_nonneg (sub_nonneg.mpr hab) (sub_nonneg.mpr hq1)]
    · rw [min_eq_right hab, max_eq_left hab]
      constructor
      · nlinarith [mul_nonneg (sub_nonneg.mpr hab) (sub_nonneg.mpr hq1)]
      · nlinarith [mul_nonneg (sub_nonneg.mpr hab) hq0]
  · exact ⟨min_le_right _ _, le_max_right _ _⟩

/-- C7: issue `setVolume(80)` at `t0`, then `setVolume(20)` at `t1` before the
first 0.05 s ramp completes.  From `t1` on the gain (a) starts exactly at the
value the first ramp had currently reached (no discontinuity: the second
setter anchors at the live mid-ramp value via `setValueAtTime(gain.value)`),
(b) has its distance to the new target 0.2 never increase as time advances
(monotone approach to 20, hence never again toward 80), (c) equals exactly
0.2 at the ramp end `t1 + 0.05` (and, by (b), ever after), and (d)/(e) stays
within the closed interval between the takeover value and 0.2, so it never
overshoots back toward the cancelled target 0.8. -/
theorem setVolume_cancel_restarts_from_current (r0 : RampState)
    (t0 t1 t u : ℚ) (h01 : t0 ≤ t1) (hmid : t1 < t0 + 5/100)
    (h1t : t1 ≤ t) (htu : t ≤ u) :
    ((r0.setVolumeAt t0 80).setVolumeAt t1 20).valueAt t1 =
      (r0.setVolumeAt t0 80).valueAt t1 ∧
    |((r0.setVolumeAt t0 80).setVolumeAt t1 20).valueAt u - 20/100| ≤
      |((r0.setVolumeAt t0 80).setVolumeAt t1 20).valueAt t - 20/100| ∧
    ((r0.setVolumeAt t0 80).setVolumeAt t1 20).valueAt (t1 + 5/100) = 20/100 ∧
    min ((r0.setVolumeAt t0 80).valueAt t1) (20/100) ≤
      ((r0.setVolumeAt t0 80).setVolumeAt t1 20).valueAt t ∧
    ((r0.setVolumeAt t0 80).setVolumeAt t1 20).valueAt t ≤
      max ((r0.setVolumeAt t0 80).valueAt t1) (20/100) := by
  set r1 := r0.setVolumeAt t0 80 with hr1
  set r2 := r1.setVolumeAt t1 20 with hr2
  have hst : r2.startTime = t1 := rfl
  have hsv : r2.startValue = r1.valueAt t1 := rfl
  have het : r2.endTime = t1 + 5/100 := rfl
  have hev : r2.endValue = 20/100 := rfl
  have hse : r2.startTime < r2.endTime := by
    rw [hst, het]; linarith
  refine ⟨?_, ?_, ?_, ?_, ?_⟩
  · rw [RampState.valueAt, hst, if_pos le_rfl, hsv]
  · have := r2.dist_to_target_antitone hse t u (by rw [hst]; exact h1t) htu
    rwa [hev] at this
  · have := r2.valueAt_of_ended hse (t1 + 5/100) (by rw [het])
    rwa [hev] at this
  · have := (r2.value_between hse t).1
    rwa [hsv, hev] at this
  · have := (r2.value_between hse t).2
    rwa [hsv, hev] at this

/-- Witness for C7 at concrete inputs: the gain param idle at value 1, the
first setter at `t0 = 0`, the second at `t1 = 1/40` (mid-ramp), observed at
`t = 1/40` and `u = 1`. -/
theorem setVolume_cancel_restarts_witness :
    (0:ℚ) ≤ 1/40 ∧ (1/40:ℚ) < 0 + 5/100 ∧ (1/40:ℚ) ≤ 1/40 ∧ (1/40:ℚ) ≤ 1 ∧
    ((((⟨0, 1, 0, 1⟩ : RampState).setVolumeAt 0 80).setVolumeAt (1/40) 20).valueAt (1/40) =
        ((⟨0, 1, 0, 1⟩ : RampState).setVolumeAt 0 80).valueAt (1/40) ∧
      |((((⟨0, 1, 0, 1⟩ : RampState).setVolumeAt 0 80).setVolumeAt (1/40) 20).valueAt 1 - 20/100)| ≤
        |((((⟨0, 1, 0, 1⟩ : RampState).setVolumeAt 0 80).setVolumeAt (1/40) 20).valueAt (1/40) - 20/100)| ∧
      (((⟨0, 1, 0, 1⟩ : RampState).setVolumeAt 0 80).setVolumeAt (1/40) 20).valueAt (1/40 + 5/100) = 20/100 ∧
      min (((⟨0, 1, 0, 1⟩ : RampState).setVolumeAt 0 80).valueAt (1/40)) (20/100) ≤
        (((⟨0, 1, 0, 1⟩ : RampState).setVolumeAt 0 80).setVolumeAt (1/40) 20).valueAt (1/40) ∧
      (((⟨0, 1, 0, 1⟩ : RampState).setVolumeAt 0 80).setVolumeAt (1/40) 20).valueAt (1/40) ≤
        max (((⟨0, 1, 0, 1⟩ : RampState).setVolumeAt 0 80).valueAt (1/40)) (20/100)) :=
  ⟨by norm_num, by norm_num, le_rfl, by norm_num,
   setVolume_cancel_restarts_from_current ⟨0, 1, 0, 1⟩ 0 (1/40) (1/40) 1
     (by norm_num) (by norm_num) le_rfl (by norm_num)⟩

/-- Folding list appends over a list is flattening its image. -/
theorem foldr_append_eq_flatten_map {α β : Type} (f : α → List β) (l : List α) :
    l.foldr (fun x acc => f x ++ acc) [] = (l.map f).flatten := by
  induction l with
  | nil => rfl
  | cons a l ih => simp [ih]

/-- One interleaved frame is the concatenation of the per-channel 16-bit
words. -/
theorem frameBytes_eq_flatten (channels : List (List ℚ)) (off : ℕ) :
    frameBytes channels off =
      (channels.map (fun ch => int16Bytes (scaleSample (ch.getD off 0)))).flatten :=
  foldr_append_eq_flatten_map _ channels

/-- The data section is the concatenation of the frames for offsets
`0, …, n-1` in order. -/
theorem pcmData_eq_flatten (channels : List (List ℚ)) (n : ℕ) :
    pcmData channels n =
      ((List.range n).map
        (fun off => (channels.map
          (fun ch => int16Bytes (scaleSample (ch.getD off 0)))).flatten)).flatten := by
  rw [pcmData, foldr_append_eq_flatten_map]
  congr 1
  exact List.map_congr_left (fun off _ => frameBytes_eq_flatten channels off)

/-- Each interleaved frame holds two bytes per channel. -/
theorem frameBytes_length (channels : List (List ℚ)) (off : ℕ) :
    (frameBytes channels off).length = 2 * channels.length := by
  induction channels with
  | nil => rfl
  | cons ch chs ih =>
    show (int16Bytes (scaleSample (ch.getD off 0)) ++ frameBytes chs off).length =
      2 * (chs.length + 1)
    rw [List.length_append, ih,
      show (int16Bytes (scaleSample (ch.getD off 0))).length = 2 from rfl]
    ring

/-- The data section holds `numSamples × channels × 2` bytes. -/
theorem pcmData_length (channels : List (List ℚ)) (n : ℕ) :
    (pcmData channels n).length = n * channels.length * 2 := by
  have haux : ∀ l : List ℕ,
      ((l.foldr (fun off acc => frameBytes channels off ++ acc) []).length) =
        l.length * (2 * channels.length) := by
    intro l
    induction l with
    | nil => simp
    | cons a l ih =>
      show (frameBytes channels a ++
          l.foldr (fun off acc => frameBytes channels off ++ acc) []).length =
        (l.length + 1) * (2 * channels.length)
      rw [List.length_append, ih, frameBytes_length]
      ring
  rw [pcmData, haux, List.length_range]
  ring

/-- C4: for a buffer with C channels of N samples each, the WAV container
written by `audioBufferToWav` is byte-for-byte the §6 layout (`"RIFF"`,
little-endian u32 file length − 8, `"WAVE"`, a 16-byte PCM `"fmt "` chunk
with channel count, sample rate, byte rate R×2×C, block align C×2, 16 bits
per sample, and a `"data"` chunk of N×C×2 bytes of interleaved clamped and
scaled signed 16-bit samples), its total size is exactly N×C×2 + 44 bytes,
and in particular a 2-channel 88200-sample buffer yields 88200×2×2 + 44
bytes. -/
theorem audioBufferToWav_spec_layout (buf : WavBuffer)
    (hch : buf.channels.all (fun ch => ch.length == buf.numSamples) = true)
    (hc : 1 ≤ buf.channels.length) :
    audioBufferToWav buf = wavSpecBytes buf ∧
    (audioBufferToWav buf).length = buf.numSamples * buf.channels.length * 2 + 44 ∧
    (buf.channels.length = 2 → buf.numSamples = 88200 →
      (audioBufferToWav buf).length = 88200 * 2 * 2 + 44) := by
  have hlen : (audioBufferToWav buf).length =
      buf.numSamples * buf.channels.length * 2 + 44 := by
    simp [audioBufferToWav, le32, le16, pcmData_length]
  refine ⟨?_, hlen, ?_⟩
  · simp only [audioBufferToWav, wavSpecBytes]
    rw [show le32 0x46464952 = [82, 73, 70, 70] from by decide,
      show le32 0x45564157 = [87, 65, 86, 69] from by decide,
      show le32 0x20746d66 = [102, 109, 116, 32] from by decide,
      show le32 0x61746164 = [100, 97, 116, 97] from by decide,
      show buf.numSamples * buf.channels.length * 2 + 44 - 40 - 4 =
        buf.numSamples * buf.channels.length * 2 from by omega,
      pcmData_eq_flatten]
  · intro h2 h88
    rw [hlen, h2, h88]

/-- Concrete stereo buffer (2 channels × 2 samples) for the C4 witness. -/
def bufStereoTest : WavBuffer :=
  ⟨[[1/2, -1], [0, 3/4]], 44100, 2⟩

/-- Witness for C4 at a concrete 2-channel, 2-samples-per-channel buffer. -/
theorem audioBufferToWav_spec_layout_witness :
    bufStereoTest.channels.all
      (fun ch => ch.length == bufStereoTest.numSamples) = true ∧
    1 ≤ bufStereoTest.channels.length ∧
    (audioBufferToWav bufStereoTest = wavSpecBytes bufStereoTest ∧
      (audioBufferToWav bufStereoTest).length =
        bufStereoTest.numSamples * bufStereoTest.channels.length * 2 + 44 ∧
      (bufStereoTest.channels.length = 2 → bufStereoTest.numSamples = 88200 →
        (audioBufferToWav bufStereoTest).length = 88200 * 2 * 2 + 44)) :=
  ⟨by decide, by decide,
   audioBufferToWav_spec_layout bufStereoTest (by decide) (by decide)⟩

end Desksong
